import Mathlib

/-!
Shallow embedding of `src/api/app/services/ocr_service.py` (class `OCRService`).

The Python class delegates PDF rasterization (`pdf2image.convert_from_path`),
image decoding (`PIL.Image.open`) and character recognition
(`pytesseract.image_to_string`) to external libraries, and otherwise only
stages bytes to a temporary file, iterates over pages and assembles results.

Modelling choices, all driven by the source:
* The external collaborators are a record `World` of black-box oracles.  The
  library calls read the file at the given path, so the oracles are functions
  of the file CONTENT (the bytes), looked up in the modelled filesystem.
  Each oracle may fail, returning `Except.error`: a Python exception raised
  by the library.
* OS-level failures of the temp-file syscalls (creation, write, unlink) are
  modelled by three `Bool` flags on the `World`; when a flag is set the
  corresponding call raises (prefixed `stagingOSError` / `unlinkOSError`, the
  `OSError`s of `tempfile.NamedTemporaryFile`/`write` and `os.unlink`).
* The mutable process state `St` holds the filesystem (an association list
  from path to bytes) and the process-global
  `pytesseract.pytesseract.tesseract_cmd` variable that `__init__` assigns.
* Every method is embedded as a function taking and returning the instance
  (`self` could be mutated in Python) and the state, and returning
  `Except Exn` for the normal/exceptional outcome, so that claims about
  mutation and exception flow are contentful.
* `str.strip()` is modelled by `pyStrip` (drop whitespace from both ends).
* The `with tempfile.NamedTemporaryFile(suffix=..., delete=False)` block
  creates the file first and then writes; because `delete=False`, the
  `with`-exit closes but never deletes, so a write failure leaves the created
  file behind, and only the later `try/finally` performs `os.unlink`.  An
  exception raised by `os.unlink` in the `finally` block replaces whatever
  the `try` block produced (Python `finally` semantics).
-/

/-- Exceptions crossing the service boundary.  The service itself never
catches exceptions; these constructors name the distinguishable kinds the
external libraries and OS calls can raise (`invalidDocument`,
`engineUnavailable` and `recognitionFailure` from the rasterizer/decoder/OCR
engine, `stagingOSError` from temp-file creation or write, `unlinkOSError`
from `os.unlink`). -/
inductive Exn where
  | invalidDocument
  | engineUnavailable
  | recognitionFailure
  | stagingOSError
  | unlinkOSError
  deriving DecidableEq, Repr

/-- An in-memory page image produced by the rasterizer or the image decoder
(`PIL` image object); its content is opaque to the service. -/
structure PILImage where
  id : Nat
  deriving DecidableEq, Repr

/-- Extraction result type of all three methods:
`List[Tuple[int, str]]` in the source. -/
abbrev ExtractionResult := List (Nat × String)

/-- Mutable process state threaded through the embedded methods: the
filesystem (path to byte content, modelled as bytes `List Nat`) and the
process-global `pytesseract.pytesseract.tesseract_cmd` variable. -/
structure St where
  fs : List (String × List Nat)
  tesseract_cmd : String
  deriving DecidableEq, Repr

/-- The external collaborators and OS behaviour as black-box oracles:
`rasterize bytes dpi` models `pdf2image.convert_from_path` on a file holding
`bytes`; `recognize img lang` models `pytesseract.image_to_string`;
`decodeImage bytes` models `PIL.Image.open` on a file holding `bytes`;
`tempName existing suffix` is the fresh name `tempfile.NamedTemporaryFile`
picks; the three flags say whether the temp-file creation, the write, or
`os.unlink` raises `OSError`. -/
structure World where
  rasterize : List Nat → Nat → Except Exn (List PILImage)
  recognize : PILImage → String → Except Exn String
  decodeImage : List Nat → Except Exn PILImage
  tempName : List String → String → String
  createFails : Bool
  writeFails : Bool
  unlinkFails : Bool

/-- Filesystem lookup: the content of the file at path `p`, if it exists. -/
def fsLookup : List (String × List Nat) → String → Option (List Nat)
  | [], _ => none
  | (q, b) :: fs, p => if q = p then some b else fsLookup fs p

/-- Filesystem write: replace the content of the file at path `p` (or create
it) with bytes `b`. -/
def fsWrite : List (String × List Nat) → String → List Nat → List (String × List Nat)
  | [], p, b => [(p, b)]
  | (q, c) :: fs, p, b => if q = p then (p, b) :: fs else (q, c) :: fsWrite fs p b

/-- Filesystem deletion: remove every entry at path `p`. -/
def fsRemove : List (String × List Nat) → String → List (String × List Nat)
  | [], _ => []
  | (q, c) :: fs, p => if q = p then fsRemove fs p else (q, c) :: fsRemove fs p

/-- Models Python's `str.strip()`: drop whitespace from both ends. -/
def pyStrip (s : String) : String :=
  String.mk (((s.data.dropWhile Char.isWhitespace).reverse.dropWhile Char.isWhitespace).reverse)

/-- Models `pdf2image.convert_from_path(pdf_path, dpi=dpi)`: reads the file
at `pdf_path` (raising if it does not exist or cannot be parsed) and hands
its content to the rasterizer oracle. -/
def convert_from_path (w : World) (st : St) (pdf_path : String) (dpi : Nat) :
    Except Exn (List PILImage) :=
  match fsLookup st.fs pdf_path with
  | none => Except.error Exn.invalidDocument
  | some bytes => w.rasterize bytes dpi

/-- Models `PIL.Image.open(image_path)`: reads the file at `image_path`
(raising if it does not exist or cannot be decoded) and hands its content to
the image decoder oracle. -/
def imageOpen (w : World) (st : St) (image_path : String) : Except Exn PILImage :=
  match fsLookup st.fs image_path with
  | none => Except.error Exn.invalidDocument
  | some bytes => w.decodeImage bytes

/-- The `for i, page in enumerate(pages, start=1)` loop of
`extract_text_from_pdf`: OCR each page in order with the given language,
numbering from `i`; the first exception raised by
`pytesseract.image_to_string` aborts the loop, discarding the entries
accumulated so far. -/
def ocrPages (w : World) (lang : String) : List PILImage → Nat → Except Exn ExtractionResult
  | [], _ => Except.ok []
  | page :: pages, i =>
    match w.recognize page lang with
    | Except.error e => Except.error e
    | Except.ok text =>
      match ocrPages w lang pages (i + 1) with
      | Except.error e => Except.error e
      | Except.ok rest => Except.ok ((i, pyStrip text) :: rest)

/-- The `OCRService` class: its only instance attribute is `self.lang`. -/
structure OCRService where
  lang : String
  deriving DecidableEq, Repr

/-- Models `OCRService.__init__(self, lang="tam")`: stores `lang` on the
instance and assigns the process-global
`pytesseract.pytesseract.tesseract_cmd = "/usr/bin/tesseract"`. -/
def OCRService.init (lang : optParam String "tam") (st : St) : OCRService × St :=
  ({ lang := lang }, { st with tesseract_cmd := "/usr/bin/tesseract" })

/-- Models `OCRService.extract_text_from_pdf(self, pdf_path, dpi=300)`:
rasterize the PDF at `pdf_path` at resolution `dpi`, then OCR each page
image with `self.lang`, collecting 1-indexed `(page, stripped text)` pairs;
any library exception propagates. -/
def OCRService.extract_text_from_pdf (svc : OCRService) (w : World) (st : St)
    (pdf_path : String) (dpi : optParam Nat 300) :
    Except Exn ExtractionResult × OCRService × St :=
  match convert_from_path w st pdf_path dpi with
  | Except.error e => (Except.error e, svc, st)
  | Except.ok pages => (ocrPages w svc.lang pages 1, svc, st)

/-- Models `OCRService.extract_text_from_image(self, image_path)`: decode
the image, OCR it once with `self.lang`, and return the single entry
`[(1, stripped text)]`; any library exception propagates. -/
def OCRService.extract_text_from_image (svc : OCRService) (w : World) (st : St)
    (image_path : String) :
    Except Exn ExtractionResult × OCRService × St :=
  match imageOpen w st image_path with
  | Except.error e => (Except.error e, svc, st)
  | Except.ok image =>
    match w.recognize image svc.lang with
    | Except.error e => (Except.error e, svc, st)
    | Except.ok text => (Except.ok [(1, pyStrip text)], svc, st)

/-- Models `OCRService.extract_from_bytes(self, file_bytes, file_type)`:
stage the bytes into a fresh temp file named with suffix `"." ++ file_type`
(creation then write; a failing write leaves the created file behind because
`delete=False`), dispatch on `file_type == "pdf"` to the path-based method
on the temp path, and in a `finally` block `os.unlink` the temp file — an
exception raised by the unlink replaces the dispatched outcome. -/
def OCRService.extract_from_bytes (svc : OCRService) (w : World) (st : St)
    (file_bytes : List Nat) (file_type : String) :
    Except Exn ExtractionResult × OCRService × St :=
  if w.createFails then (Except.error Exn.stagingOSError, svc, st)
  else
    let tmp_path := w.tempName (st.fs.map Prod.fst) ("." ++ file_type)
    let st1 : St := { st with fs := (tmp_path, []) :: st.fs }
    if w.writeFails then (Except.error Exn.stagingOSError, svc, st1)
    else
      let st2 : St := { st1 with fs := fsWrite st1.fs tmp_path file_bytes }
      let out :=
        if file_type = "pdf" then svc.extract_text_from_pdf w st2 tmp_path
        else svc.extract_text_from_image w st2 tmp_path
      if w.unlinkFails then (Except.error Exn.unlinkOSError, out.2.1, out.2.2)
      else (out.1, out.2.1, { out.2.2 with fs := fsRemove out.2.2.fs tmp_path })

/-- Statement-side helper: number a list of recognized texts consecutively
from `i`, stripping each. `numberFrom 1 ts` is the expected result of a
fully successful multi-page extraction whose raw OCR outputs are `ts`. -/
def numberFrom : Nat → List String → ExtractionResult
  | _, [] => []
  | i, t :: ts => (i, pyStrip t) :: numberFrom (i + 1) ts

/-- A concrete service instance used by the closed witness statements. -/
def svc0 : OCRService := { lang := "tam" }

/-- A concrete empty-filesystem state used by the closed witness statements. -/
def st0 : St := { fs := [], tesseract_cmd := "/usr/bin/tesseract" }

/-- A concrete state whose filesystem holds one file `doc.pdf`. -/
def stDoc : St := { fs := [("doc.pdf", [1])], tesseract_cmd := "/usr/bin/tesseract" }

/-- A concrete world where everything succeeds: every PDF rasterizes to two
pages, OCR always returns `" a "`, image decoding yields one image. -/
def wTwoPages : World where
  rasterize := fun _ _ => Except.ok [{ id := 0 }, { id := 1 }]
  recognize := fun _ _ => Except.ok " a "
  decodeImage := fun _ => Except.ok { id := 5 }
  tempName := fun _ suf => "/tmp/stage0" ++ suf
  createFails := false
  writeFails := false
  unlinkFails := false

/-- A concrete world whose rasterizer records the requested DPI in the page
image id and whose OCR output reveals whether the DPI was 300. -/
def wDpi : World where
  rasterize := fun _ dpi => Except.ok [{ id := dpi }]
  recognize := fun img _ => Except.ok (if img.id = 300 then " d300 " else " other ")
  decodeImage := fun _ => Except.ok { id := 5 }
  tempName := fun _ suf => "/tmp/stage0" ++ suf
  createFails := false
  writeFails := false
  unlinkFails := false

/-- A concrete world whose OCR engine always raises. -/
def wRecFail : World where
  rasterize := fun _ _ => Except.ok [{ id := 0 }]
  recognize := fun _ _ => Except.error Exn.recognitionFailure
  decodeImage := fun _ => Except.ok { id := 5 }
  tempName := fun _ suf => "/tmp/stage0" ++ suf
  createFails := false
  writeFails := false
  unlinkFails := false

/-- A concrete world where writing the staged temp file raises `OSError`
after the file has been created. -/
def wWriteFail : World where
  rasterize := fun _ _ => Except.ok [{ id := 0 }]
  recognize := fun _ _ => Except.ok " a "
  decodeImage := fun _ => Except.ok { id := 5 }
  tempName := fun _ suf => "/tmp/stage0" ++ suf
  createFails := false
  writeFails := true
  unlinkFails := false

/-- A concrete world where `os.unlink` of the staged temp file raises
`OSError` while everything else succeeds. -/
def wUnlinkFail : World where
  rasterize := fun _ _ => Except.ok [{ id := 0 }]
  recognize := fun _ _ => Except.ok " ok "
  decodeImage := fun _ => Except.ok { id := 5 }
  tempName := fun _ suf => "/tmp/stage0" ++ suf
  createFails := false
  writeFails := false
  unlinkFails := true

/-- A concrete world that behaves like `wTwoPages` on the configured
language `"tam"` but differently on every other language. -/
def wOtherLang : World where
  rasterize := fun _ _ => Except.ok [{ id := 0 }, { id := 1 }]
  recognize := fun _ lang => Except.ok (if lang = "tam" then " a " else " b ")
  decodeImage := fun _ => Except.ok { id := 5 }
  tempName := fun _ suf => "/tmp/stage0" ++ suf
  createFails := false
  writeFails := false
  unlinkFails := false

/-- The OCR loop on a fully successful run: if every page is recognized
(with outputs `ts`, page by page), the loop returns the texts stripped and
numbered consecutively from `i`. -/
theorem ocrPages_ok (w : World) (lang : String) {pages : List PILImage} {ts : List String}
    (h : List.Forall₂ (fun p t => w.recognize p lang = Except.ok t) pages ts) :
    ∀ i : Nat, ocrPages w lang pages i = Except.ok (numberFrom i ts) := by
  induction h with
  | nil => intro i; rfl
  | cons hpt htail ih =>
    intro i
    simp only [ocrPages, hpt, ih (i + 1)]
    rfl

/-- The OCR loop aborts with the engine's exception as soon as one page
fails, discarding all previously recognized pages. -/
theorem ocrPages_error (w : World) (lang : String) (bad : PILImage) (e : Exn)
    (hbad : w.recognize bad lang = Except.error e) :
    ∀ (pre rest : List PILImage) (i : Nat),
      (∀ p ∈ pre, ∃ t, w.recognize p lang = Except.ok t) →
      ocrPages w lang (pre ++ bad :: rest) i = Except.error e := by
  intro pre
  induction pre with
  | nil =>
    intro rest i _
    simp only [List.nil_append, ocrPages, hbad]
  | cons p ps ih =>
    intro rest i hpre
    obtain ⟨t, ht⟩ := hpre p (List.mem_cons_self p ps)
    simp only [List.cons_append, ocrPages, ht, List.append_eq,
      ih rest (i + 1) fun q hq => hpre q (List.mem_cons_of_mem p hq)]

/-- The OCR loop consults the recognizer only at the given language: two
worlds that agree on `recognize · lang` produce identical loop results. -/
theorem ocrPages_congr (w w' : World) (lang : String)
    (h : ∀ img, w.recognize img lang = w'.recognize img lang) :
    ∀ (pages : List PILImage) (i : Nat), ocrPages w lang pages i = ocrPages w' lang pages i := by
  intro pages
  induction pages with
  | nil => intro i; rfl
  | cons p ps ih =>
    intro i
    simp only [ocrPages, h p, ih (i + 1)]

/-- Length of a numbered text list. -/
theorem numberFrom_length (ts : List String) : ∀ i, (numberFrom i ts).length = ts.length := by
  induction ts with
  | nil => intro i; rfl
  | cons t ts ih => intro i; simp [numberFrom, ih (i + 1)]

/-- The page numbers of `numberFrom i ts` are `i, i+1, ...`: consecutive,
ascending, without gaps. -/
theorem numberFrom_map_fst (ts : List String) :
    ∀ i, (numberFrom i ts).map Prod.fst = List.range' i ts.length := by
  induction ts with
  | nil => intro i; rfl
  | cons t ts ih =>
    intro i
    show i :: (numberFrom (i + 1) ts).map Prod.fst = i :: List.range' (i + 1) ts.length
    rw [ih (i + 1)]

/-- The entry at index `j` of `numberFrom i ts` is page `i + j` with the
stripped `j`-th text. -/
theorem numberFrom_getElem? (ts : List String) :
    ∀ i j : Nat, (numberFrom i ts)[j]? = ts[j]?.map fun t => (i + j, pyStrip t) := by
  induction ts with
  | nil => intro i j; simp [numberFrom]
  | cons t ts ih =>
    intro i j
    cases j with
    | zero => simp [numberFrom]
    | succ j =>
      simp only [numberFrom, List.getElem?_cons_succ, ih (i + 1) j]
      have harith : i + 1 + j = i + (j + 1) := by omega
      rw [harith]

/-- `extract_text_from_pdf` returns the instance and the state unchanged. -/
theorem extract_text_from_pdf_state (svc : OCRService) (w : World) (st : St)
    (pdf_path : String) (dpi : Nat) :
    (svc.extract_text_from_pdf w st pdf_path dpi).2 = (svc, st) := by
  unfold OCRService.extract_text_from_pdf
  cases convert_from_path w st pdf_path dpi <;> rfl

/-- `extract_text_from_image` returns the instance and the state unchanged. -/
theorem extract_text_from_image_state (svc : OCRService) (w : World) (st : St)
    (image_path : String) :
    (svc.extract_text_from_image w st image_path).2 = (svc, st) := by
  unfold OCRService.extract_text_from_image
  split
  · rfl
  · split <;> rfl

/-- Unfolding of `convert_from_path` on an existing file. -/
theorem convert_from_path_eq (w : World) {st : St} {p : String} {b : List Nat} (dpi : Nat)
    (h : fsLookup st.fs p = some b) : convert_from_path w st p dpi = w.rasterize b dpi := by
  unfold convert_from_path
  rw [h]

/-- Unfolding of `imageOpen` on an existing file. -/
theorem imageOpen_eq (w : World) {st : St} {p : String} {b : List Nat}
    (h : fsLookup st.fs p = some b) : imageOpen w st p = w.decodeImage b := by
  unfold imageOpen
  rw [h]

/-- The outcome of `extract_text_from_pdf` depends on the state and path only
through the bytes stored at the path. -/
theorem extract_text_from_pdf_content (svc : OCRService) (w : World) {st st' : St}
    {p p' : String} {b : List Nat} (dpi : Nat)
    (h : fsLookup st.fs p = some b) (h' : fsLookup st'.fs p' = some b) :
    (svc.extract_text_from_pdf w st p dpi).1 = (svc.extract_text_from_pdf w st' p' dpi).1 := by
  unfold OCRService.extract_text_from_pdf
  rw [convert_from_path_eq w dpi h, convert_from_path_eq w dpi h']
  cases w.rasterize b dpi <;> rfl

/-- The outcome of `extract_text_from_image` depends on the state and path
only through the bytes stored at the path. -/
theorem extract_text_from_image_content (svc : OCRService) (w : World) {st st' : St}
    {p p' : String} {b : List Nat}
    (h : fsLookup st.fs p = some b) (h' : fsLookup st'.fs p' = some b) :
    (svc.extract_text_from_image w st p).1 = (svc.extract_text_from_image w st' p').1 := by
  unfold OCRService.extract_text_from_image
  rw [imageOpen_eq w h, imageOpen_eq w h']
  cases w.decodeImage b with
  | error e => rfl
  | ok img =>
    show (match w.recognize img svc.lang with
          | Except.error e => (Except.error e, svc, st)
          | Except.ok text => (Except.ok [(1, pyStrip text)], svc, st)).1 =
        (match w.recognize img svc.lang with
          | Except.error e => (Except.error e, svc, st')
          | Except.ok text => (Except.ok [(1, pyStrip text)], svc, st')).1
    cases w.recognize img svc.lang <;> rfl

/-- After removing a path, looking it up yields nothing. -/
theorem fsLookup_fsRemove (fs : List (String × List Nat)) (p : String) :
    fsLookup (fsRemove fs p) p = none := by
  induction fs with
  | nil => rfl
  | cons e fs ih =>
    obtain ⟨q, c⟩ := e
    by_cases hq : q = p
    · simp [fsRemove, hq, ih]
    · simp [fsRemove, fsLookup, hq, ih]

/-- Writing over the head entry replaces its content. -/
theorem fsWrite_cons_self (fs : List (String × List Nat)) (p : String) (c b : List Nat) :
    fsWrite ((p, c) :: fs) p b = (p, b) :: fs := by
  simp [fsWrite]

/-- Removing the head entry then keeps removing the path in the tail. -/
theorem fsRemove_cons_self (fs : List (String × List Nat)) (p : String) (c : List Nat) :
    fsRemove ((p, c) :: fs) p = fsRemove fs p := by
  simp [fsRemove]

/-- Unfolding of `extract_from_bytes` when all three temp-file operations
succeed: the bytes are staged at the fresh temp path, the call dispatches on
`file_type == "pdf"` to the corresponding path-based method (the PDF branch
at the default dpi 300), the instance is returned unchanged, and the final
filesystem is the initial one with the temp path removed. -/
theorem extract_from_bytes_ok_unfold (svc : OCRService) (w : World) (st : St)
    (file_bytes : List Nat) (file_type : String)
    (hc : w.createFails = false) (hw : w.writeFails = false) (hu : w.unlinkFails = false) :
    svc.extract_from_bytes w st file_bytes file_type =
      ((if file_type = "pdf" then
          (svc.extract_text_from_pdf w
            { st with fs := (w.tempName (st.fs.map Prod.fst) ("." ++ file_type), file_bytes) :: st.fs }
            (w.tempName (st.fs.map Prod.fst) ("." ++ file_type)) 300).1
        else
          (svc.extract_text_from_image w
            { st with fs := (w.tempName (st.fs.map Prod.fst) ("." ++ file_type), file_bytes) :: st.fs }
            (w.tempName (st.fs.map Prod.fst) ("." ++ file_type))).1),
       svc,
       { st with fs := fsRemove st.fs (w.tempName (st.fs.map Prod.fst) ("." ++ file_type)) }) := by
  by_cases hft : file_type = "pdf" <;>
    simp [OCRService.extract_from_bytes, hc, hw, hu, hft, fsWrite_cons_self, fsRemove_cons_self,
      extract_text_from_pdf_state, extract_text_from_image_state]

/-- C1: for every valid N-page PDF path and positive dpi,
`extract_text_from_pdf` returns exactly N entries whose page numbers are
`1..N` in ascending order with no gaps, one per source page, and each
entry's text is the OCR engine's output for that page with surrounding
whitespace trimmed.  Formally: if the file exists, rasterizes to `pages`
and the engine recognizes every page (raw outputs `ts`, in page order),
the call returns `numberFrom 1 ts` (the stripped texts numbered
consecutively from 1) leaving instance and state unchanged; that list has
`pages.length` entries, its page numbers are `List.range' 1 pages.length`,
and its `j`-th entry is page `1 + j` with the stripped `j`-th raw output. -/
theorem extract_text_from_pdf_pages (svc : OCRService) (w : World) (st : St)
    (pdf_path : String) (dpi : Nat) (bytes : List Nat)
    (pages : List PILImage) (ts : List String)
    (hdpi : 0 < dpi)
    (hlook : fsLookup st.fs pdf_path = some bytes)
    (hrast : w.rasterize bytes dpi = Except.ok pages)
    (hrec : List.Forall₂ (fun p t => w.recognize p svc.lang = Except.ok t) pages ts) :
    svc.extract_text_from_pdf w st pdf_path dpi = (Except.ok (numberFrom 1 ts), svc, st)
      ∧ (numberFrom 1 ts).length = pages.length
      ∧ (numberFrom 1 ts).map Prod.fst = List.range' 1 pages.length
      ∧ ∀ j : Nat, (numberFrom 1 ts)[j]? = ts[j]?.map fun t => (1 + j, pyStrip t) := by
  have hlen : ts.length = pages.length := hrec.length_eq.symm
  refine ⟨?_, ?_, ?_, fun j => numberFrom_getElem? ts 1 j⟩
  · unfold OCRService.extract_text_from_pdf
    rw [convert_from_path_eq w dpi hlook, hrast]
    show (ocrPages w svc.lang pages 1, svc, st) = _
    rw [ocrPages_ok w svc.lang hrec 1]
  · rw [numberFrom_length ts 1, hlen]
  · rw [numberFrom_map_fst ts 1, hlen]

/-- Witness for C1 at a concrete two-page PDF whose pages both read `" a "`. -/
theorem extract_text_from_pdf_pages_witness :
    svc0.extract_text_from_pdf wTwoPages stDoc "doc.pdf" 300 =
        (Except.ok [(1, "a"), (2, "a")], svc0, stDoc)
      ∧ (numberFrom 1 [" a ", " a "]).map Prod.fst = [1, 2] :=
  have h := extract_text_from_pdf_pages svc0 wTwoPages stDoc "doc.pdf" 300 [1]
    [{ id := 0 }, { id := 1 }] [" a ", " a "] (by decide) rfl rfl
    (List.Forall₂.cons rfl (List.Forall₂.cons rfl List.Forall₂.nil))
  ⟨h.1, h.2.2.1⟩

/-- C4: if the OCR engine invocation errors for any page during
`extract_text_from_pdf` (here: pages `pre` succeed, then page `bad` raises
`e`), the entire call aborts with that exception: no partial result
containing the pages already recognized is returned, no per-page retry
occurs, and instance and state are unchanged. -/
theorem extract_text_from_pdf_abort (svc : OCRService) (w : World) (st : St)
    (pdf_path : String) (dpi : Nat) (bytes : List Nat)
    (pre rest : List PILImage) (bad : PILImage) (e : Exn)
    (hlook : fsLookup st.fs pdf_path = some bytes)
    (hrast : w.rasterize bytes dpi = Except.ok (pre ++ bad :: rest))
    (hpre : ∀ p ∈ pre, ∃ t, w.recognize p svc.lang = Except.ok t)
    (hbad : w.recognize bad svc.lang = Except.error e) :
    svc.extract_text_from_pdf w st pdf_path dpi = (Except.error e, svc, st) := by
  unfold OCRService.extract_text_from_pdf
  rw [convert_from_path_eq w dpi hlook, hrast]
  show (ocrPages w svc.lang (pre ++ bad :: rest) 1, svc, st) = _
  rw [ocrPages_error w svc.lang bad e hbad pre rest 1 hpre]

/-- Witness for C4: a one-page PDF whose only page fails recognition. -/
theorem extract_text_from_pdf_abort_witness :
    svc0.extract_text_from_pdf wRecFail stDoc "doc.pdf" 300 =
      (Except.error Exn.recognitionFailure, svc0, stDoc) :=
  extract_text_from_pdf_abort svc0 wRecFail stDoc "doc.pdf" 300 [1] [] [] { id := 0 }
    Exn.recognitionFailure rfl rfl (fun p hp => nomatch hp) rfl

/-- C5: for every valid image path (file present, decodable, recognized with
raw output `t`), `extract_text_from_image` returns exactly the single-entry
sequence `[(1, stripped t)]`, leaving instance and state unchanged. -/
theorem extract_text_from_image_single (svc : OCRService) (w : World) (st : St)
    (image_path : String) (bytes : List Nat) (img : PILImage) (t : String)
    (hlook : fsLookup st.fs image_path = some bytes)
    (hopen : w.decodeImage bytes = Except.ok img)
    (hrec : w.recognize img svc.lang = Except.ok t) :
    svc.extract_text_from_image w st image_path = (Except.ok [(1, pyStrip t)], svc, st) := by
  unfold OCRService.extract_text_from_image
  rw [imageOpen_eq w hlook, hopen]
  show (match w.recognize img svc.lang with
        | Except.error e => (Except.error e, svc, st)
        | Except.ok text => (Except.ok [(1, pyStrip text)], svc, st)) = _
  rw [hrec]

/-- Witness for C5 at a concrete image file. -/
theorem extract_text_from_image_single_witness :
    svc0.extract_text_from_image wTwoPages stDoc "doc.pdf" =
      (Except.ok [(1, "a")], svc0, stDoc) :=
  extract_text_from_image_single svc0 wTwoPages stDoc "doc.pdf" [1] { id := 5 } " a "
    rfl rfl rfl

/-- C8: the recognition language is fixed at construction time
(`OCRService.init` stores `lang` as the instance's only attribute) and is
applied uniformly to every OCR invocation in every extract operation: the
outcome of either path-based extraction depends on the recognizer oracle
only through its behaviour at `svc.lang` — two worlds that agree there (and
on the other oracles) are indistinguishable, so no page and no call uses
any other language — and neither extract call modifies the instance or the
process state (the read-only configuration). -/
theorem lang_uniform_and_readonly (svc : OCRService) (w w' : World) (st : St)
    (pdf_path image_path lang : String) (dpi : Nat)
    (hrec : ∀ img, w.recognize img svc.lang = w'.recognize img svc.lang)
    (hrast : w.rasterize = w'.rasterize)
    (hdec : w.decodeImage = w'.decodeImage) :
    svc.extract_text_from_pdf w st pdf_path dpi = svc.extract_text_from_pdf w' st pdf_path dpi
    ∧ svc.extract_text_from_image w st image_path = svc.extract_text_from_image w' st image_path
    ∧ (svc.extract_text_from_pdf w st pdf_path dpi).2 = (svc, st)
    ∧ (svc.extract_text_from_image w st image_path).2 = (svc, st)
    ∧ ((OCRService.init lang st).1).lang = lang := by
  have hconv : convert_from_path w st pdf_path dpi = convert_from_path w' st pdf_path dpi := by
    unfold convert_from_path
    rw [hrast]
  have hio : imageOpen w st image_path = imageOpen w' st image_path := by
    unfold imageOpen
    rw [hdec]
  refine ⟨?_, ?_, extract_text_from_pdf_state svc w st pdf_path dpi,
    extract_text_from_image_state svc w st image_path, rfl⟩
  · unfold OCRService.extract_text_from_pdf
    rw [hconv]
    cases convert_from_path w' st pdf_path dpi with
    | error e => rfl
    | ok pages =>
      show (ocrPages w svc.lang pages 1, svc, st) = (ocrPages w' svc.lang pages 1, svc, st)
      rw [ocrPages_congr w w' svc.lang hrec pages 1]
  · unfold OCRService.extract_text_from_image
    rw [hio]
    cases imageOpen w' st image_path with
    | error e => rfl
    | ok img =>
      show (match w.recognize img svc.lang with
            | Except.error e => (Except.error e, svc, st)
            | Except.ok text => (Except.ok [(1, pyStrip text)], svc, st)) =
          (match w'.recognize img svc.lang with
            | Except.error e => (Except.error e, svc, st)
            | Except.ok text => (Except.ok [(1, pyStrip text)], svc, st))
      rw [hrec img]

/-- Witness for C8: `wTwoPages` and `wOtherLang` agree on language `"tam"`
only, and the extraction results coincide. -/
theorem lang_uniform_and_readonly_witness :
    svc0.extract_text_from_pdf wTwoPages stDoc "doc.pdf" 300
        = svc0.extract_text_from_pdf wOtherLang stDoc "doc.pdf" 300
    ∧ svc0.extract_text_from_image wTwoPages stDoc "doc.pdf"
        = svc0.extract_text_from_image wOtherLang stDoc "doc.pdf"
    ∧ (svc0.extract_text_from_pdf wTwoPages stDoc "doc.pdf" 300).2 = (svc0, stDoc)
    ∧ (svc0.extract_text_from_image wTwoPages stDoc "doc.pdf").2 = (svc0, stDoc)
    ∧ ((OCRService.init "eng" stDoc).1).lang = "eng" :=
  lang_uniform_and_readonly svc0 wTwoPages wOtherLang stDoc "doc.pdf" "doc.pdf" "eng" 300
    (fun img => rfl) rfl rfl

/-- C10: every construction of `OCRService`, regardless of the `lang`
argument, mutates the process-global state so that the OCR engine
executable path becomes the fixed value "/usr/bin/tesseract"; the instance
itself stores only `lang`, and the resulting global executable path is
identical across constructions with different arguments and prior globals,
so the path is not configurable per instance. -/
theorem init_sets_tesseract_cmd (lang lang' : String) (st st' : St) :
    (OCRService.init lang st).2.tesseract_cmd = "/usr/bin/tesseract"
    ∧ (OCRService.init lang st).1 = { lang := lang }
    ∧ (OCRService.init lang st).2.fs = st.fs
    ∧ (OCRService.init lang st).2.tesseract_cmd = (OCRService.init lang' st').2.tesseract_cmd :=
  ⟨rfl, rfl, rfl, rfl⟩

/-- C9: the rasterization DPI is per-call: `extract_text_from_pdf` hands
the caller-supplied `dpi` to the rasterizer; omitting the argument is the
same call at 300 (the declared default); and a call routed through
`extract_from_bytes` with file type "pdf" (temp-file operations
succeeding) rasterizes the staged bytes at exactly 300. -/
theorem dpi_per_call_default_300 (svc : OCRService) (w : World) (st st' : St)
    (pdf_path : String) (dpi : Nat) (bytes file_bytes : List Nat)
    (hlook : fsLookup st'.fs pdf_path = some bytes)
    (hc : w.createFails = false) (hw : w.writeFails = false) (hu : w.unlinkFails = false) :
    (svc.extract_text_from_pdf w st' pdf_path dpi).1 =
      (match w.rasterize bytes dpi with
       | Except.error e => Except.error e
       | Except.ok pages => ocrPages w svc.lang pages 1)
    ∧ svc.extract_text_from_pdf w st' pdf_path = svc.extract_text_from_pdf w st' pdf_path 300
    ∧ (svc.extract_from_bytes w st file_bytes "pdf").1 =
      (match w.rasterize file_bytes 300 with
       | Except.error e => Except.error e
       | Except.ok pages => ocrPages w svc.lang pages 1) := by
  refine ⟨?_, rfl, ?_⟩
  · unfold OCRService.extract_text_from_pdf
    rw [convert_from_path_eq w dpi hlook]
    cases w.rasterize bytes dpi <;> rfl
  · rw [extract_from_bytes_ok_unfold svc w st file_bytes "pdf" hc hw hu]
    have htmp : fsLookup
        ((w.tempName (st.fs.map Prod.fst) ("." ++ "pdf"), file_bytes) :: st.fs)
        (w.tempName (st.fs.map Prod.fst) ("." ++ "pdf")) = some file_bytes := by
      simp [fsLookup]
    show (if ("pdf" : String) = "pdf" then
            (svc.extract_text_from_pdf w
              { st with fs := (w.tempName (st.fs.map Prod.fst) ("." ++ "pdf"), file_bytes) :: st.fs }
              (w.tempName (st.fs.map Prod.fst) ("." ++ "pdf")) 300).1
          else
            (svc.extract_text_from_image w
              { st with fs := (w.tempName (st.fs.map Prod.fst) ("." ++ "pdf"), file_bytes) :: st.fs }
              (w.tempName (st.fs.map Prod.fst) ("." ++ "pdf"))).1) = _
    rw [if_pos rfl]
    unfold OCRService.extract_text_from_pdf
    rw [convert_from_path_eq w 300 htmp]
    cases w.rasterize file_bytes 300 <;> rfl

/-- Witness for C9 with a rasterizer that records the requested DPI in the
page it returns: the explicit call uses 72, the byte-routed call uses 300. -/
theorem dpi_per_call_default_300_witness :
    (svc0.extract_text_from_pdf wDpi stDoc "doc.pdf" 72).1 = Except.ok [(1, "other")]
    ∧ (svc0.extract_from_bytes wDpi st0 [7] "pdf").1 = Except.ok [(1, "d300")] :=
  have h := dpi_per_call_default_300 svc0 wDpi st0 stDoc "doc.pdf" 72 [1] [7] rfl rfl rfl rfl
  ⟨h.1.trans rfl, h.2.2.trans rfl⟩

/-- C2 (amended): when the temporary file is successfully created and
written and the final `os.unlink` itself succeeds, the temp file staged by
the `extract_from_bytes` call is gone from the filesystem when the call
completes, on every exit path of the dispatched extraction (success or any
failure).  As originally stated the claim is false: a write failure after
creation leaves the file behind (see the counterexample). -/
theorem extract_from_bytes_cleanup (svc : OCRService) (w : World) (st : St)
    (file_bytes : List Nat) (file_type : String)
    (hc : w.createFails = false) (hw : w.writeFails = false) (hu : w.unlinkFails = false) :
    fsLookup ((svc.extract_from_bytes w st file_bytes file_type).2.2).fs
      (w.tempName (st.fs.map Prod.fst) ("." ++ file_type)) = none := by
  rw [extract_from_bytes_ok_unfold svc w st file_bytes file_type hc hw hu]
  exact fsLookup_fsRemove st.fs _

/-- Witness for the amended C2 at a concrete successful call. -/
theorem extract_from_bytes_cleanup_witness :
    fsLookup ((svc0.extract_from_bytes wTwoPages st0 [7] "pdf").2.2).fs "/tmp/stage0.pdf"
      = none :=
  extract_from_bytes_cleanup svc0 wTwoPages st0 [7] "pdf" rfl rfl rfl

/-- Counterexample to C2 as stated: when `tmp.write(file_bytes)` raises
after `tempfile.NamedTemporaryFile` has already created the file, the call
exits with the staging error on a path that never reaches the
`try/finally`, and because `delete=False` the file created by the call
remains on the filesystem. -/
theorem extract_from_bytes_cleanup_cex :
    (svc0.extract_from_bytes wWriteFail st0 [7] "pdf").1 = Except.error Exn.stagingOSError
    ∧ fsLookup ((svc0.extract_from_bytes wWriteFail st0 [7] "pdf").2.2).fs "/tmp/stage0.pdf"
        = some [] :=
  ⟨rfl, rfl⟩

/-- C3: for every byte buffer and file type (temp-file operations
succeeding), `extract_from_bytes` returns the same outcome as writing the
bytes to a file and calling the corresponding path-based method on that
file — `extract_text_from_pdf` (at the default dpi 300) exactly when
`file_type` is "pdf", `extract_text_from_image` for any other value. -/
theorem extract_from_bytes_roundtrip (svc : OCRService) (w : World) (st st' : St)
    (p : String) (file_bytes : List Nat) (file_type : String)
    (hc : w.createFails = false) (hw : w.writeFails = false) (hu : w.unlinkFails = false)
    (hp : fsLookup st'.fs p = some file_bytes) :
    (svc.extract_from_bytes w st file_bytes file_type).1 =
      if file_type = "pdf" then (svc.extract_text_from_pdf w st' p 300).1
      else (svc.extract_text_from_image w st' p).1 := by
  rw [extract_from_bytes_ok_unfold svc w st file_bytes file_type hc hw hu]
  have htmp : fsLookup
      ((w.tempName (st.fs.map Prod.fst) ("." ++ file_type), file_bytes) :: st.fs)
      (w.tempName (st.fs.map Prod.fst) ("." ++ file_type)) = some file_bytes := by
    simp [fsLookup]
  by_cases hft : file_type = "pdf"
  · rw [if_pos hft, if_pos hft]
    exact extract_text_from_pdf_content svc w 300 htmp hp
  · rw [if_neg hft, if_neg hft]
    exact extract_text_from_image_content svc w htmp hp

/-- Witness for C3: the bytes `[1]` staged and extracted as a PDF give the
same outcome as the direct path-based call on `doc.pdf`, which holds `[1]`. -/
theorem extract_from_bytes_roundtrip_witness :
    (svc0.extract_from_bytes wTwoPages st0 [1] "pdf").1 =
      (svc0.extract_text_from_pdf wTwoPages stDoc "doc.pdf" 300).1 :=
  extract_from_bytes_roundtrip svc0 wTwoPages st0 stDoc "doc.pdf" [1] "pdf" rfl rfl rfl rfl

/-- C6: `extract_from_bytes` fails with the distinguishable staging error
kind whenever the temporary file cannot be created or written, and (the
temp-file operations succeeding) propagates any failure of the dispatched
path-based operation unchanged. -/
theorem extract_from_bytes_error_policy (svc : OCRService) (w : World) (st : St)
    (file_bytes : List Nat) (file_type : String) (e : Exn) :
    ((w.createFails = true ∨ w.writeFails = true) →
      (svc.extract_from_bytes w st file_bytes file_type).1 = Except.error Exn.stagingOSError)
    ∧ (w.createFails = false → w.writeFails = false → w.unlinkFails = false →
        (if file_type = "pdf" then
          (svc.extract_text_from_pdf w
            { st with
              fs := (w.tempName (st.fs.map Prod.fst) ("." ++ file_type), file_bytes) :: st.fs }
            (w.tempName (st.fs.map Prod.fst) ("." ++ file_type)) 300).1
         else
          (svc.extract_text_from_image w
            { st with
              fs := (w.tempName (st.fs.map Prod.fst) ("." ++ file_type), file_bytes) :: st.fs }
            (w.tempName (st.fs.map Prod.fst) ("." ++ file_type))).1) = Except.error e →
        (svc.extract_from_bytes w st file_bytes file_type).1 = Except.error e) := by
  constructor
  · intro hsf
    cases hcf : w.createFails with
    | true => simp [OCRService.extract_from_bytes, hcf]
    | false =>
      have hwf : w.writeFails = true := by
        rcases hsf with h | h
        · rw [hcf] at h
          exact absurd h (by decide)
        · exact h
      simp [OCRService.extract_from_bytes, hcf, hwf]
  · intro hc hw hu hdisp
    rw [extract_from_bytes_ok_unfold svc w st file_bytes file_type hc hw hu]
    exact hdisp

/-- Witness for C6: a failing write yields the staging error; a recognition
failure inside the dispatched PDF extraction is propagated unchanged. -/
theorem extract_from_bytes_error_policy_witness :
    (svc0.extract_from_bytes wWriteFail stDoc [7] "pdf").1 = Except.error Exn.stagingOSError
    ∧ (svc0.extract_from_bytes wRecFail st0 [7] "pdf").1
        = Except.error Exn.recognitionFailure :=
  ⟨(extract_from_bytes_error_policy svc0 wWriteFail stDoc [7] "pdf"
      Exn.stagingOSError).1 (Or.inr rfl),
   (extract_from_bytes_error_policy svc0 wRecFail st0 [7] "pdf"
      Exn.recognitionFailure).2 rfl rfl rfl rfl⟩

/-- C7 at its failing input: the dispatched extraction succeeds (the staged
one-page PDF is recognized as "ok"), but because `os.unlink` in the
`finally` block raises, `extract_from_bytes` returns the cleanup error
instead of the successful result — the success is overturned and nothing is
logged, contradicting the claim's design choice; the temp file also
remains. -/
theorem extract_from_bytes_unlink_overturns :
    (svc0.extract_text_from_pdf wUnlinkFail
        { st0 with fs := [("/tmp/stage0.pdf", [7])] } "/tmp/stage0.pdf" 300).1
      = Except.ok [(1, "ok")]
    ∧ (svc0.extract_from_bytes wUnlinkFail st0 [7] "pdf").1 = Except.error Exn.unlinkOSError
    ∧ fsLookup ((svc0.extract_from_bytes wUnlinkFail st0 [7] "pdf").2.2).fs "/tmp/stage0.pdf"
        = some [7] :=
  ⟨rfl, rfl, rfl⟩
